import Mathlib

/-!
Shallow embedding of the ticket-lifecycle core of the discord-server
repository (src/tickets/models/ticket.py and src/tickets/models/transcript.py).

Modelling conventions:
* `datetime` values are a logical clock of type `Nat`; every call to
  `datetime.now` is an oracle value supplied by the caller of the operation.
* Python dictionaries are insertion-ordered association lists; `d[k] = v`
  updates in place when the key is present and appends otherwise, matching
  CPython semantics.
* Awaited platform calls (category/channel creation, message sends, the
  message-history iterator, transcript handlers) are oracle parameters whose
  outcome is an `Except PyError` value; a `.error` models the awaited call
  raising.
* Where a call site disagrees with the pydantic field declarations of the
  model it instantiates, the keyword arguments of the call are modelled
  explicitly and validated against the declared fields, because that is the
  behaviour the interpreter gives the source.
* Free-form `metadata` mappings are omitted: no modelled operation reads or
  writes them.
-/

/-- Runtime faults that the modelled code can raise or catch: pydantic
validation failure, a missing attribute, a type error, and any failure of an
awaited platform call. -/
inductive PyError where
  | validationError
  | attributeError
  | typeError
  | apiError
  deriving DecidableEq

/-- Lookup in an insertion-ordered association list; Python `dict.get(k)`. -/
def dictGet [DecidableEq κ] (d : List (κ × α)) (k : κ) : Option α :=
  match d with
  | [] => none
  | (k1, v1) :: rest => if k1 = k then some v1 else dictGet rest k

/-- Python `d[k] = v`: update in place when `k` is present, append otherwise. -/
def dictInsert [DecidableEq κ] (d : List (κ × α)) (k : κ) (v : α) : List (κ × α) :=
  match d with
  | [] => [(k, v)]
  | (k1, v1) :: rest => if k1 = k then (k, v) :: rest else (k1, v1) :: dictInsert rest k v

/-- Python `del d[k]`. -/
def dictDelete [DecidableEq κ] (d : List (κ × α)) (k : κ) : List (κ × α) :=
  match d with
  | [] => []
  | (k1, v1) :: rest => if k1 = k then dictDelete rest k else (k1, v1) :: dictDelete rest k

/-- A guild role; only the identity matters to the modelled code. -/
structure Role where
  id : Nat
  deriving DecidableEq

/-- A category channel of the guild, as seen in `guild.categories`. -/
structure CategoryChannel where
  id : Nat
  name : String
  deriving DecidableEq

/-- The guild snapshot the ticket code reads: its role list, the
default/everyone role, the bot's own member (`guild.me`) and its category
list. Members are identified by their id. -/
structure Guild where
  roles : List Role
  default_role_id : Nat
  me_id : Nat
  categories : List CategoryChannel
  deriving DecidableEq

/-- Source `TicketTeam` (ticket.py lines 18-35): a name plus a role id. -/
structure TicketTeam where
  name : String
  role_id : Nat
  deriving DecidableEq

/-- Source `TicketTeam.get_role` (ticket.py lines 22-27): scan `guild.roles` and
return the first role with the stored id; the bare `return` at line 27 yields
`None` when no role matches. -/
def TicketTeam.get_role (team : TicketTeam) (g : Guild) : Option Role :=
  g.roles.find? (fun r => r.id == team.role_id)

/-- A `discord.PermissionOverwrite`: a tri-state allow/deny per permission,
restricted to the flags the source ever sets. -/
structure PermissionOverwrite where
  view_channel : Option Bool := none
  send_messages : Option Bool := none
  attach_files : Option Bool := none
  embed_links : Option Bool := none
  manage_channels : Option Bool := none
  manage_messages : Option Bool := none
  deriving DecidableEq

/-- A key of the overwrite dictionary: a role or a member. The dictionary in
the source is keyed by Python objects, and an unresolved role leaves the
Python value `None` as the key, hence the overwrite map below is keyed by
`Option PermTarget`. -/
inductive PermTarget where
  | role (id : Nat)
  | member (id : Nat)
  deriving DecidableEq

/-- Overwrite given to `guild.default_role` (ticket.py line 110). -/
def everyoneOverwrite : PermissionOverwrite := { view_channel := some false }

/-- Overwrite given to the creator (ticket.py lines 111-116). -/
def creatorOverwrite : PermissionOverwrite :=
  { view_channel := some true, send_messages := some true
    attach_files := some true, embed_links := some true }

/-- Overwrite given to `guild.me` (ticket.py lines 117-122). -/
def botOverwrite : PermissionOverwrite :=
  { view_channel := some true, send_messages := some true
    manage_channels := some true, manage_messages := some true }

/-- Overwrite given to each team role (ticket.py lines 127-132). -/
def teamOverwrite : PermissionOverwrite :=
  { view_channel := some true, send_messages := some true
    attach_files := some true, embed_links := some true }

/-- Source `TicketTypeConfig` (ticket.py lines 38-83): the data supplied by a
registrant of a ticket type. The declared properties are identifier,
display_name, description, emoji, teams, color, channel_prefix and
category_name; the remaining declared attributes are the four methods
build_create_embed, build_close_embed, get_channel_permissions and
on_ticket_created. Nothing in the class declares an attribute named
`type_id`. -/
structure TicketTypeConfig where
  identifier : String
  display_name : String
  description : String
  emoji : String
  teams : List TicketTeam
  color : Nat
  channel_prefix : String
  category_name : Option String
  deriving DecidableEq

/-- Python attribute lookup on a `TicketTypeConfig`, restricted to the
string-valued attributes the class declares (ticket.py lines 38-83); every
other name, in particular `type_id`, is absent and yields `none`, which the
interpreter reports as an `AttributeError`. -/
def TicketTypeConfig.strAttr (t : TicketTypeConfig) (name : String) : Option String :=
  if name = "identifier" then some t.identifier
  else if name = "display_name" then some t.display_name
  else if name = "description" then some t.description
  else if name = "emoji" then some t.emoji
  else if name = "channel_prefix" then some ( TicketTypeConfig.channel_prefix t)
  else none

/-- The dictionary key used for a team's overwrite entry (ticket.py lines
126-127): the resolved role, or the Python value `None` when
`team.get_role(guild)` found no role. -/
def teamKey (g : Guild) (team : TicketTeam) : Option PermTarget :=
  (TicketTeam.get_role team g).map (fun r => PermTarget.role r.id)

/-- Source `TicketTypeConfig.get_channel_permissions` (ticket.py lines 105-134):
build the dict literal keyed by the default role, the creator and `guild.me`,
then for each team insert an entry keyed by `team.get_role(guild)` - which is
the Python value `None` when the role does not resolve - with the team
overwrite. -/
def TicketTypeConfig.get_channel_permissions (t : TicketTypeConfig) (g : Guild)
    (creator_id : Nat) : List (Option PermTarget × PermissionOverwrite) :=
  let base :=
    dictInsert
      (dictInsert
        (dictInsert ([] : List (Option PermTarget × PermissionOverwrite))
          (some (PermTarget.role g.default_role_id)) everyoneOverwrite)
        (some (PermTarget.member creator_id)) creatorOverwrite)
      (some (PermTarget.member g.me_id)) botOverwrite
  t.teams.foldl (fun acc team => dictInsert acc (teamKey g team) teamOverwrite) base

/-- The ticket-type registry (ticket.py lines 211-234): a dict from string
key to descriptor. -/
abbrev TicketTypeRegistry := List (String × TicketTypeConfig)

/-- Source `TicketTypeRegistry.register` (ticket.py lines 217-220): the source
stores under `ticket_type.type_id`. `TicketTypeConfig` declares no attribute
of that name (its unique identifier attribute is `identifier`, lines 39-43),
so the attribute access raises `AttributeError` and nothing is stored. -/
def TicketTypeRegistry.register (reg : TicketTypeRegistry) (ticket_type : TicketTypeConfig) :
    Except PyError TicketTypeRegistry :=
  match TicketTypeConfig.strAttr ticket_type ("type_id") with
  | some key => Except.ok (dictInsert reg key ticket_type)
  | none => Except.error PyError.attributeError

/-- Source `TicketTypeRegistry.get` (ticket.py lines 222-224): `dict.get`. -/
def TicketTypeRegistry.get (reg : TicketTypeRegistry) (type_id : String) :
    Option TicketTypeConfig :=
  dictGet reg type_id

/-- The author identity of a message, a `discord.Member` or `discord.User`
reference. -/
structure UserRef where
  id : Nat
  deriving DecidableEq

/-- Source `TranscriptEntry` (transcript.py lines 7-15) with exactly the declared
fields: author, content, timestamp, attachments, embeds (payloads kept
opaque) and message_id. There is no declared field named `author_id`. -/
structure TranscriptEntry where
  author : UserRef
  content : String
  timestamp : Nat
  attachments : List String
  embeds : List String
  message_id : Option Nat
  deriving DecidableEq

/-- A Python value read off a `TranscriptEntry` attribute. -/
inductive PyVal where
  | vstr (s : String)
  | vint (n : Nat)
  | vuser (u : UserRef)
  | vstrList (l : List String)
  | vnone
  deriving DecidableEq

/-- Wrap an optional integer the way Python stores `int | None`. -/
def PyVal.ofOptNat : Option Nat → PyVal
  | none => PyVal.vnone
  | some n => PyVal.vint n

/-- Python attribute lookup on a `TranscriptEntry`: exactly the fields
declared at transcript.py lines 10-15 resolve; any other name - in particular
`author_id` - yields `none`, which the interpreter reports as an
`AttributeError`. -/
def TranscriptEntry.pyAttr (e : TranscriptEntry) (name : String) : Option PyVal :=
  if name = "author" then some (PyVal.vuser e.author)
  else if name = "content" then some (PyVal.vstr e.content)
  else if name = "timestamp" then some (PyVal.vint e.timestamp)
  else if name = "attachments" then some (PyVal.vstrList e.attachments)
  else if name = "embeds" then some (PyVal.vstrList e.embeds)
  else if name = "message_id" then some (PyVal.ofOptNat e.message_id)
  else none

/-- A `discord.Message` as read by `TranscriptEntry.from_discord_message`. -/
structure Message where
  id : Nat
  author_id : Nat
  author_name : String
  author_display_name : String
  author_avatar_url : String
  content : String
  created_at : Nat
  attachments : List String
  embeds : List String
  deriving DecidableEq

/-- The keyword arguments of the `cls(...)` call inside
`TranscriptEntry.from_discord_message` (transcript.py lines 20-30), matched
against the declared fields of `TranscriptEntry`. Keywords that name no
declared field (author_id, author_name, author_profile_picture,
author_display_name) are ignored by pydantic's default extra handling and are
recorded here only for fidelity to the call site. -/
structure TranscriptEntryKwargs where
  author : Option UserRef := none
  content : Option String := none
  timestamp : Option Nat := none
  attachments : Option (List String) := none
  embeds : Option (List String) := none
  message_id : Option (Option Nat) := none
  author_id : Option Nat := none
  author_name : Option String := none
  author_profile_picture : Option String := none
  author_display_name : Option String := none

/-- Pydantic validation of a `TranscriptEntry` construction: the declared
fields without defaults (author, content, timestamp; transcript.py lines
10-12) must be supplied, the rest take their declared defaults. -/
def validateTranscriptEntry (k : TranscriptEntryKwargs) : Except PyError TranscriptEntry :=
  match k.author, k.content, k.timestamp with
  | some a, some c, some ts =>
      Except.ok
        { author := a, content := c, timestamp := ts
          attachments := k.attachments.getD []
          embeds := k.embeds.getD []
          message_id := k.message_id.getD none }
  | _, _, _ => Except.error PyError.validationError

/-- Source `TranscriptEntry.from_discord_message` (transcript.py lines 17-30): the
call site passes author_id, author_name, author_profile_picture and
author_display_name, none of which is the declared required field `author`,
so validation raises. -/
def TranscriptEntry.from_discord_message (m : Message) : Except PyError TranscriptEntry :=
  validateTranscriptEntry
    { author_id := some m.author_id
      author_name := some m.author_name
      author_profile_picture := some m.author_avatar_url
      author_display_name := some m.author_display_name
      content := some m.content
      timestamp := some m.created_at
      attachments := some m.attachments
      embeds := some m.embeds
      message_id := some (some m.id) }

/-- Source `Transcript` (transcript.py lines 33-52) with the declared fields
(free-form metadata omitted, nothing modelled touches it). -/
structure Transcript where
  ticket_id : Nat
  channel_id : Nat
  creator_id : Nat
  ticket_type : String
  reason : String
  created_at : Nat
  closed_at : Option Nat
  entries : List TranscriptEntry
  deriving DecidableEq

/-- A fresh `Transcript` as constructed with the declared defaults: empty
reason, no closure timestamp, no entries (transcript.py lines 40-44). -/
def Transcript.init (ticket_id channel_id creator_id : Nat) (ticket_type : String)
    (created_at : Nat) : Transcript :=
  { ticket_id := ticket_id, channel_id := channel_id, creator_id := creator_id
    ticket_type := ticket_type, reason := "", created_at := created_at
    closed_at := none, entries := [] }

/-- Source `Transcript.add_entry` (transcript.py lines 46-48): append. -/
def Transcript.add_entry (t : Transcript) (entry : TranscriptEntry) : Transcript :=
  { t with entries := t.entries ++ [entry] }

/-- Source `Transcript.close` (transcript.py lines 50-52): stamp the current time
into `closed_at`. -/
def Transcript.close (t : Transcript) (now : Nat) : Transcript :=
  { t with closed_at := some now }

/-- Source `Transcript.get_message_count` (transcript.py lines 65-67). -/
def Transcript.get_message_count (t : Transcript) : Nat :=
  t.entries.length

/-- Source `Transcript.get_unique_participants` (transcript.py lines 69-71): the set
comprehension reads `entry.author_id` from every entry and collapses
duplicates. The attribute read follows Python attribute semantics over the
declared fields of `TranscriptEntry`. -/
def Transcript.get_unique_participants (t : Transcript) : Except PyError (List PyVal) :=
  (t.entries.mapM (fun e =>
    match TranscriptEntry.pyAttr e ("author_id") with
    | some v => Except.ok v
    | none => Except.error PyError.attributeError)).map List.dedup

/-- Source `TicketStatus` (ticket.py lines 12-15). -/
inductive TicketStatus where
  | OPEN
  | CLOSED
  | ARCHIVED
  deriving DecidableEq

/-- Source `TicketConfig` (ticket.py lines 150-165) with the declared fields
(free-form metadata omitted, nothing modelled touches it). -/
structure TicketConfig where
  ticket_id : Nat
  channel_id : Nat
  creator_id : Nat
  ticket_type : String
  status : TicketStatus
  created_at : Nat
  closed_at : Option Nat
  deriving DecidableEq

/-- A `TicketConfig` with the declared defaults applied: status OPEN, the
creation timestamp, no closure timestamp (ticket.py lines 157-159). -/
def TicketConfig.init (ticket_id channel_id creator_id : Nat) (ticket_type : String)
    (now : Nat) : TicketConfig :=
  { ticket_id := ticket_id, channel_id := channel_id, creator_id := creator_id
    ticket_type := ticket_type, status := TicketStatus.OPEN
    created_at := now, closed_at := none }

/-- Source `TicketConfig.close` (ticket.py lines 162-165): set status CLOSED and
stamp the closure time. -/
def TicketConfig.close (c : TicketConfig) (now : Nat) : TicketConfig :=
  { c with status := TicketStatus.CLOSED, closed_at := some now }

/-- The value `create_ticket` passes for the `ticket_type` keyword of the
`TicketConfig` constructor. At ticket.py line 288 the string parameter
`ticket_type` is rebound to the resolved descriptor object, so line 301
passes that descriptor, not a string. -/
inductive StrArg where
  | ofStr (s : String)
  | ofDescriptor (t : TicketTypeConfig)
  deriving DecidableEq

/-- Pydantic validation of a value against a field annotated `str`
(`TicketConfig.ticket_type`, ticket.py line 156): a string passes, any other
object fails validation. -/
def pydanticStr : StrArg → Except PyError String
  | StrArg.ofStr s => Except.ok s
  | StrArg.ofDescriptor _ => Except.error PyError.validationError

/-- The `TicketConfig(...)` constructor call as issued by `create_ticket`
(ticket.py lines 297-302): validate the `ticket_type` argument against its
`str` annotation, then apply the declared defaults. (Independently of the
`ticket_type` argument, line 158 also declares
`created_at = Field(default_factory=datetime.now(UTC))`, a non-callable
default factory whose invocation raises `TypeError`; either fault makes the
construction raise inside the `try` block. The validation fault is the one
modelled; `now` stands for the creation clock so that the unreachable success
branch is still fully defined.) -/
def TicketConfig.validate (ticket_id channel_id creator_id : Nat) (ticket_type : StrArg)
    (now : Nat) : Except PyError TicketConfig :=
  (pydanticStr ticket_type).map (fun tt =>
    TicketConfig.init ticket_id channel_id creator_id tt now)

/-- Source `Ticket` (ticket.py lines 168-208): config, channel handle, creator,
shared descriptor, and an owned transcript. -/
structure Ticket where
  config : TicketConfig
  channel_id : Nat
  creator_id : Nat
  ticket_type : TicketTypeConfig
  transcript : Transcript
  deriving DecidableEq

/-- Source `Ticket.__init__` (ticket.py lines 171-188): store the parts and build
the transcript from the config plus the descriptor's identifier. -/
def Ticket.init (config : TicketConfig) (channel_id creator_id : Nat)
    (ticket_type : TicketTypeConfig) : Ticket :=
  { config := config, channel_id := channel_id, creator_id := creator_id
    ticket_type := ticket_type
    transcript := Transcript.init config.ticket_id config.channel_id config.creator_id
      ticket_type.identifier config.created_at }

/-- The outcome of iterating `channel.history(...)`: the messages the
iterator yields, then an optional fault it raises afterwards. -/
structure HistOutcome where
  msgs : List Message
  fault : Option PyError
  deriving DecidableEq

/-- The loop body of `Ticket.collect_messages` (ticket.py lines 198-204): for
each yielded message build a `TranscriptEntry` and append it; the first
exception - whether from entry construction or from the iterator's fault -
is caught by the surrounding `except` and iteration stops with the entries
gathered so far. -/
def collectLoop (t : Transcript) : List Message → Option PyError → Transcript
  | [], _ => t
  | m :: rest, f =>
    match TranscriptEntry.from_discord_message m with
    | Except.error _ => t
    | Except.ok e => collectLoop (t.add_entry e) rest f

/-- Source `Ticket.collect_messages` (ticket.py lines 198-204): total, every
exception is caught inside the method. (When the iterator yields all its
messages and then faults, the fault is likewise caught, which is why the
result ignores a trailing fault.) -/
def Ticket.collect_messages (t : Ticket) (hist : HistOutcome) : Ticket :=
  { t with transcript := collectLoop t.transcript hist.msgs hist.fault }

/-- Source `Ticket.close` (ticket.py lines 206-208): close the config, then the
transcript; the two `datetime.now` reads are the two clock arguments. -/
def Ticket.close (t : Ticket) (configNow transcriptNow : Nat) : Ticket :=
  { t with config := TicketConfig.close t.config configNow
           transcript := Transcript.close t.transcript transcriptNow }

/-- A registered transcript handler, modelled by the outcome of its
`save_transcript` call: the reported boolean, or a raised exception.
(`TranscriptHandler` is an unimplemented protocol, transcript.py lines
74-83.) -/
inductive HandlerBehavior where
  | returns (b : Bool)
  | raises (e : PyError)
  deriving DecidableEq

/-- The handler loop of `close_ticket` (ticket.py lines 349-350): run the
handlers in order; the reported boolean is ignored, the first handler that
raises aborts the remaining sequence. -/
def runHandlers : List HandlerBehavior → Except PyError Unit
  | [] => Except.ok ()
  | HandlerBehavior.returns _ :: rest => runHandlers rest
  | HandlerBehavior.raises e :: _ => Except.error e

/-- Source `TicketSystem` state (ticket.py lines 240-253). -/
structure TicketSystem where
  guild : Guild
  default_category : Nat
  archive : Nat
  tickets : List (Nat × Ticket)
  transcript_handlers : List HandlerBehavior
  type_registry : TicketTypeRegistry
  next_ticket_id : Nat
  categories : List (String × Nat)
  deriving DecidableEq

/-- Oracle outcomes for the awaited platform calls of `create_ticket`, plus
the creation clock. -/
structure CreateEnv where
  create_category : String → Except PyError Nat
  create_text_channel : Nat → String → List (Option PermTarget × PermissionOverwrite) →
    Except PyError Nat
  send_create_embed : Nat → Except PyError Unit
  on_created_hook : Except PyError Unit
  now : Nat

/-- Python truthiness of the optional category name: `None` and the empty
string are falsy (`if not category_name`, ticket.py line 268). -/
def categoryNameFalsy : Option String → Bool
  | none => true
  | some s => s.isEmpty

/-- Source `TicketSystem._get_or_create_category` (ticket.py lines 264-280): falsy
name gives the default category; otherwise consult the cache, then the
guild's existing categories, else create one (an awaited call that may
raise); a resolved category is cached. -/
def TicketSystem.get_or_create_category (s : TicketSystem) (env : CreateEnv)
    (category_name : Option String) : Except PyError (Nat × TicketSystem) :=
  if categoryNameFalsy category_name then Except.ok (s.default_category, s)
  else
    let name := category_name.getD ""
    match dictGet s.categories name with
    | some cat => Except.ok (cat, s)
    | none =>
      match (s.guild.categories.find? (fun c => c.name == name)).map CategoryChannel.id with
      | some cat =>
          Except.ok (cat, { s with categories := dictInsert s.categories name cat })
      | none =>
        match env.create_category name with
        | Except.error e => Except.error e
        | Except.ok cat =>
            Except.ok (cat, { s with categories := dictInsert s.categories name cat })

/-- Zero-pad to four digits, the `:04d` format of ticket.py line 306. -/
def zpad4 (n : Nat) : String :=
  let s := toString n
  String.mk (List.replicate (4 - s.length) '0') ++ s

/-- Source `TicketSystem.create_ticket` (ticket.py lines 282-332). The result's
exception channel is what the caller would see raised. Steps, in source
order: resolve the descriptor (miss: log and return `None`, no state touched);
inside `try`: post-increment the id counter, construct the `TicketConfig`
(which raises, see `TicketConfig.validate`), resolve the category, compute
the channel name, compute overwrites, create the channel, register the
ticket, send the creation embed, run the type's post-creation hook, return
the ticket; any exception in the `try` is caught and converted to `None`
with the state mutated so far kept. -/
def TicketSystem.create_ticket (s : TicketSystem) (env : CreateEnv) (creator_id : Nat)
    (ticket_type : String) : Except PyError (Option Ticket × TicketSystem) :=
  match TicketTypeRegistry.get s.type_registry ticket_type with
  | none => Except.ok (none, s)
  | some tdesc =>
    let ticket_id := s.next_ticket_id
    let s1 := { s with next_ticket_id := s.next_ticket_id + 1 }
    match TicketConfig.validate ticket_id 0 creator_id (StrArg.ofDescriptor tdesc) env.now with
    | Except.error _ => Except.ok (none, s1)
    | Except.ok config =>
      match TicketSystem.get_or_create_category s1 env tdesc.category_name with
      | Except.error _ => Except.ok (none, s1)
      | Except.ok (category, s2) =>
        let channel_name := TicketTypeConfig.channel_prefix tdesc ++ "-" ++ zpad4 ticket_id
        let overwrites := TicketTypeConfig.get_channel_permissions tdesc s2.guild creator_id
        match env.create_text_channel category channel_name overwrites with
        | Except.error _ => Except.ok (none, s2)
        | Except.ok channel_id =>
          let config2 := { config with channel_id := channel_id }
          let ticket := Ticket.init config2 channel_id creator_id tdesc
          let s3 := { s2 with tickets := dictInsert s2.tickets ticket_id ticket }
          match env.send_create_embed channel_id with
          | Except.error _ => Except.ok (none, s3)
          | Except.ok _ =>
            match env.on_created_hook with
            | Except.error _ => Except.ok (none, s3)
            | Except.ok _ => Except.ok (some ticket, s3)

/-- Oracle outcomes for the awaited calls of `close_ticket`: the history
iterator's outcome, the archive-channel send, and the two closure-clock
reads. -/
structure CloseEnv where
  hist : HistOutcome
  archive_send : Except PyError Unit
  configNow : Nat
  transcriptNow : Nat

/-- Source `TicketSystem.close_ticket` (ticket.py lines 334-361). The result's
exception channel is what the caller would see raised. Steps, in source
order: look the ticket up (miss: log and return `False`); inside `try`:
collect messages (total, see `Ticket.collect_messages`), close the ticket -
these mutate the ticket object held by the map - build the closure embed
(pure), send it to the archive channel, run every transcript handler in
order, delete the ticket from the map, return `True`; any exception in the
`try` is caught and converted to `False`, keeping the mutations made so
far - in particular a handler exception is caught after the `del` was
skipped. -/
def TicketSystem.close_ticket (s : TicketSystem) (ticket_id : Nat) (_closer_id : Nat)
    (env : CloseEnv) : Except PyError (Bool × TicketSystem) :=
  match dictGet s.tickets ticket_id with
  | none => Except.ok (false, s)
  | some ticket =>
    let t1 := Ticket.collect_messages ticket env.hist
    let t2 := Ticket.close t1 env.configNow env.transcriptNow
    let s1 := { s with tickets := dictInsert s.tickets ticket_id t2 }
    match env.archive_send with
    | Except.error _ => Except.ok (false, s1)
    | Except.ok _ =>
      match runHandlers s1.transcript_handlers with
      | Except.error _ => Except.ok (false, s1)
      | Except.ok _ =>
          Except.ok (true, { s1 with tickets := dictDelete s1.tickets ticket_id })

/-- One call to `create_ticket` in a call sequence. -/
structure CreateCall where
  creator_id : Nat
  ticket_type : String
  env : CreateEnv

/-- The ticket ids handed out by line 294 over a sequence of `create_ticket`
calls: an id is allocated exactly when the descriptor resolved, whether or
not the creation then completes. -/
def allocatedIds (s : TicketSystem) : List CreateCall → List Nat
  | [] => []
  | c :: rest =>
    match TicketSystem.create_ticket s c.env c.creator_id c.ticket_type with
    | Except.ok (_, s2) =>
        (if (TicketTypeRegistry.get s.type_registry c.ticket_type).isSome
         then [s.next_ticket_id] else []) ++ allocatedIds s2 rest
    | Except.error _ => allocatedIds s rest

/-- One public operation on an open ticket: a message-collection pass or a
close (carrying the two clock reads of `Ticket.close`). -/
inductive TicketOp where
  | collect (hist : HistOutcome)
  | close (configNow transcriptNow : Nat)
  deriving DecidableEq

/-- Apply one operation to a ticket. -/
def Ticket.applyOp (t : Ticket) : TicketOp → Ticket
  | TicketOp.collect hist => Ticket.collect_messages t hist
  | TicketOp.close a b => Ticket.close t a b

/-- Apply a sequence of operations to a ticket. -/
def Ticket.applyOps : Ticket → List TicketOp → Ticket
  | t, [] => t
  | t, op :: rest => Ticket.applyOps (Ticket.applyOp t op) rest

/-- Whether an operation returned normally to its caller rather than
raising. -/
def exceptOk : Except PyError α → Bool
  | Except.ok _ => true
  | Except.error _ => false

/-- The "support" descriptor of the spec scenario: identifier "support",
channel-name prefix "sup". -/
def tdSupport : TicketTypeConfig :=
  { identifier := "support", display_name := "Support", description := "Support tickets"
    emoji := "", teams := [], color := 0, channel_prefix := "sup", category_name := none }

/-- A guild with no extra roles; the bot member has id 99. -/
def g0 : Guild :=
  { roles := [], default_role_id := 0, me_id := 99, categories := [] }

/-- A cooperative platform environment: every awaited creation call
succeeds. -/
def env0 : CreateEnv :=
  { create_category := fun _ => Except.ok 50
    create_text_channel := fun _ _ _ => Except.ok 60
    send_create_embed := fun _ => Except.ok ()
    on_created_hook := Except.ok ()
    now := 5 }

/-- A fresh ticket system whose registry holds the "support" descriptor. -/
def sScen : TicketSystem :=
  { guild := g0, default_category := 10, archive := 11, tickets := []
    transcript_handlers := [], type_registry := [("support", tdSupport)]
    next_ticket_id := 1, categories := [] }

/-- An open support ticket, id 1, channel 42, creator 7, created at clock 0. -/
def tkC1 : Ticket :=
  Ticket.init (TicketConfig.init 1 42 7 ("support") 0) 42 7 tdSupport

/-- A closing environment: empty history, archive send succeeds, clock reads
3 and 4. -/
def envC1 : CloseEnv :=
  { hist := { msgs := [], fault := none }, archive_send := Except.ok ()
    configNow := 3, transcriptNow := 4 }

/-- A system holding the open ticket 1 whose single transcript handler
raises. -/
def sC1 : TicketSystem :=
  { sScen with tickets := [(1, tkC1)]
               transcript_handlers := [HandlerBehavior.raises PyError.apiError]
               next_ticket_id := 2 }

/-- The ticket 1 after `close_ticket` mutated it under `envC1`: status
CLOSED, config closure clock 3, transcript closure clock 4, no entries. -/
def tkC1closed : Ticket :=
  { config := { ticket_id := 1, channel_id := 42, creator_id := 7, ticket_type := "support"
                status := TicketStatus.CLOSED, created_at := 0, closed_at := some 3 }
    channel_id := 42, creator_id := 7, ticket_type := tdSupport
    transcript := { ticket_id := 1, channel_id := 42, creator_id := 7
                    ticket_type := "support", reason := "", created_at := 0
                    closed_at := some 4, entries := [] } }

/-- The state `sC1` after the failed close: ticket 1 still registered, now closed. -/
def sC1after : TicketSystem :=
  { sC1 with tickets := [(1, tkC1closed)] }

/-- The system `sC1` with a single well-behaved handler instead. -/
def sC10 : TicketSystem :=
  { sC1 with transcript_handlers := [HandlerBehavior.returns true] }

/-- The environment `envC1` but the history iterator raises after yielding nothing. -/
def envC10 : CloseEnv :=
  { envC1 with hist := { msgs := [], fault := some PyError.apiError } }

/-- A transcript entry authored by user 123. -/
def eC9a : TranscriptEntry :=
  { author := ⟨123⟩, content := "hello", timestamp := 1, attachments := []
    embeds := [], message_id := none }

/-- A second entry by the same author. -/
def eC9b : TranscriptEntry :=
  { author := ⟨123⟩, content := "again", timestamp := 2, attachments := []
    embeds := [], message_id := none }

/-- A transcript populated by two `add_entry` calls with the same author. -/
def trC9 : Transcript :=
  Transcript.add_entry (Transcript.add_entry (Transcript.init 1 42 123 ("support") 0) eC9a) eC9b

/-- The support descriptor with one responsible team whose role id is 5. -/
def tdC5 : TicketTypeConfig :=
  { tdSupport with teams := [{ name := "mods", role_id := 5 }] }

/-- A guild in which role 5 exists, so the team of `tdC5` resolves. -/
def gC5w : Guild :=
  { roles := [⟨5⟩], default_role_id := 0, me_id := 99, categories := [] }

/-- A create call for the registered "support" type by user 7. -/
def callSup7 : CreateCall :=
  { creator_id := 7, ticket_type := "support", env := env0 }

/-- A second create call for the "support" type, by user 8. -/
def callSup8 : CreateCall :=
  { creator_id := 8, ticket_type := "support", env := env0 }

/-- A ticket that has been closed consistently: both closure stamps are set,
both at or after the creation clock `c0`, and the status is CLOSED. -/
def closedStamped (c0 : Nat) (t : Ticket) : Prop :=
  ∃ a b, t.config.closed_at = some a ∧ c0 ≤ a
    ∧ t.transcript.closed_at = some b ∧ c0 ≤ b
    ∧ t.config.status = TicketStatus.CLOSED

/-- The state invariant of a ticket reachable from a fresh one: either still
open with neither closure stamp set, or closed with both stamps set at or
after the creation clock. -/
def closedConsistent (c0 : Nat) (t : Ticket) : Prop :=
  (t.config.closed_at = none ∧ t.transcript.closed_at = none
    ∧ t.config.status = TicketStatus.OPEN)
  ∨ closedStamped c0 t

/-- The ticket obtained by running a sequence of public operations on a
freshly constructed ticket. -/
def ticketAfter (ticket_id channel_id creator_id : Nat) (tts : String)
    (td : TicketTypeConfig) (c0 : Nat) (ops : List TicketOp) : Ticket :=
  Ticket.applyOps
    (Ticket.init (TicketConfig.init ticket_id channel_id creator_id tts c0)
      channel_id creator_id td)
    ops

/-- Looking a key up right after inserting it finds the inserted value. -/
theorem dictGet_dictInsert_self [DecidableEq κ] (d : List (κ × α)) (k : κ) (v : α) :
    dictGet (dictInsert d k v) k = some v := by
  induction d with
  | nil => simp [dictGet, dictInsert]
  | cons hd tl ih =>
    by_cases h : hd.1 = k
    · simp [dictGet, dictInsert, h]
    · simpa [dictGet, dictInsert, h] using ih

/-- Inserting under one key leaves lookups of a different key unchanged. -/
theorem dictGet_dictInsert_ne [DecidableEq κ] (d : List (κ × α)) (k k2 : κ) (v : α)
    (h : k2 ≠ k) : dictGet (dictInsert d k v) k2 = dictGet d k2 := by
  have h2 : k ≠ k2 := Ne.symm h
  induction d with
  | nil => simp [dictGet, dictInsert, h2]
  | cons hd tl ih =>
    by_cases h1 : hd.1 = k
    · simp [dictGet, dictInsert, h1, h2]
    · simp [dictGet, dictInsert, h1, ih]

/-- A deleted key is no longer found. -/
theorem dictGet_dictDelete_self [DecidableEq κ] (d : List (κ × α)) (k : κ) :
    dictGet (dictDelete d k) k = none := by
  induction d with
  | nil => simp [dictGet, dictDelete]
  | cons hd tl ih =>
    by_cases h : hd.1 = k
    · simpa [dictDelete, h] using ih
    · simpa [dictGet, dictDelete, h] using ih

/-- A handler sequence in which every handler merely reports a boolean runs
to completion. -/
theorem runHandlers_ok_of_returns (hs : List HandlerBehavior)
    (h : ∀ hb ∈ hs, ∃ b, hb = HandlerBehavior.returns b) : runHandlers hs = Except.ok () := by
  induction hs with
  | nil => rfl
  | cons hd tl ih =>
    obtain ⟨b, hb⟩ := h hd (List.mem_cons_self hd tl)
    subst hb
    exact ih (fun x hx => h x (List.mem_cons_of_mem _ hx))

/-- The collection loop never adds an entry: the very first
`TranscriptEntry.from_discord_message` call raises (its keywords omit the
required `author` field) and the exception is caught, ending the loop. -/
theorem collectLoop_id (msgs : List Message) (f : Option PyError) (t : Transcript) :
    collectLoop t msgs f = t := by
  cases msgs <;> rfl

/-- C6: the claim says `register(descriptor)` inserts the descriptor keyed by
its identifier without ever raising. The source (ticket.py line 219) instead
reads the attribute `type_id`, which `TicketTypeConfig` does not declare, so
every call raises `AttributeError` and stores nothing. -/
theorem c6_register_raises :
    ∀ (reg : TicketTypeRegistry) (td : TicketTypeConfig),
      TicketTypeRegistry.register reg td = Except.error PyError.attributeError := by
  intro reg td
  rfl

/-- C9: the claim says `get_unique_participants()` returns the distinct set
of author identities. The source (transcript.py line 71) reads
`entry.author_id`, an attribute `TranscriptEntry` does not declare (its field
is `author`), so on this two-entry transcript the call raises
`AttributeError` instead of returning the one-element set. -/
theorem c9_participants_raises :
    Transcript.get_unique_participants trC9 = Except.error PyError.attributeError := by
  rfl

/-- C4: the claim says the first ticket created on a fresh system with the
"support" type (prefix "sup") is ticket 1 with channel "sup-0001" and status
OPEN. The source never gets that far: line 288 rebinds `ticket_type` to the
descriptor object, the `TicketConfig` construction at lines 297-302 then
fails pydantic validation inside the `try`, and `create_ticket` returns
`None` having created no ticket - only the id counter moved to 2. -/
theorem c4_scenario_creates_nothing :
    TicketSystem.create_ticket sScen env0 123 ("support")
      = Except.ok (none, { sScen with next_ticket_id := 2 }) := by
  rfl

/-- C8: `close_ticket` on an id absent from the active-tickets map returns
the failure result and leaves the whole system state unchanged. -/
theorem c8_close_missing_id (s : TicketSystem) (ticket_id closer_id : Nat) (env : CloseEnv)
    (h : dictGet s.tickets ticket_id = none) :
    TicketSystem.close_ticket s ticket_id closer_id env = Except.ok (false, s) := by
  unfold TicketSystem.close_ticket
  rw [h]

/-- Witness for C8 on a concrete system with no ticket 1. -/
theorem c8_witness :
    dictGet sScen.tickets 1 = none
      ∧ TicketSystem.close_ticket sScen 1 9 envC1 = Except.ok (false, sScen) :=
  ⟨rfl, c8_close_missing_id sScen 1 9 envC1 rfl⟩

/-- C3: neither `create_ticket` nor `close_ticket` lets a raised fault reach
the caller: for every state and every oracle outcome both entry points
return normally (the code before the `try` cannot raise, and everything
inside it is converted to the `None`/`False` result by the `except`). -/
theorem c3_no_fault_escapes :
    (∀ (s : TicketSystem) (env : CreateEnv) (creator_id : Nat) (tt : String),
      exceptOk (TicketSystem.create_ticket s env creator_id tt) = true)
    ∧ (∀ (s : TicketSystem) (ticket_id closer_id : Nat) (env : CloseEnv),
      exceptOk (TicketSystem.close_ticket s ticket_id closer_id env) = true) := by
  constructor
  · intro s env creator_id tt
    unfold TicketSystem.create_ticket
    split
    · rfl
    · rfl
  · intro s ticket_id closer_id env
    unfold TicketSystem.close_ticket
    split
    · rfl
    · dsimp only
      split
      · rfl
      · split <;> rfl

/-- Every id in the allocation trace starting from state `s` is at least the
current counter value of `s`. -/
theorem allocatedIds_lb (calls : List CreateCall) :
    ∀ (s : TicketSystem) (x : Nat), x ∈ allocatedIds s calls → s.next_ticket_id ≤ x := by
  induction calls with
  | nil => intro s x hx; simp [allocatedIds] at hx
  | cons c rest ih =>
    intro s x hx
    cases h1 : TicketTypeRegistry.get s.type_registry c.ticket_type with
    | none =>
      rw [show allocatedIds s (c :: rest) = allocatedIds s rest from by
        simp [allocatedIds, TicketSystem.create_ticket, h1]] at hx
      exact ih s x hx
    | some td =>
      rw [show allocatedIds s (c :: rest)
          = s.next_ticket_id
            :: allocatedIds { s with next_ticket_id := s.next_ticket_id + 1 } rest from by
        simp [allocatedIds, TicketSystem.create_ticket, h1, TicketConfig.validate,
          pydanticStr, Except.map]] at hx
      rcases List.mem_cons.mp hx with he | ht
      · exact he ▸ Nat.le_refl _
      · exact Nat.le_of_succ_le (ih _ x ht)

/-- C2: over any sequence of `create_ticket` calls the ids handed out by the
allocator are strictly increasing, hence never reused, even though every
creation fails after allocation; and a call whose type identifier does not
resolve returns no ticket and leaves the whole state - in particular the
next-ticket-id counter - untouched. -/
theorem c2_ticket_ids (s : TicketSystem) (env : CreateEnv) (creator_id : Nat) (tt : String)
    (calls : List CreateCall) :
    (TicketTypeRegistry.get s.type_registry tt = none →
      TicketSystem.create_ticket s env creator_id tt = Except.ok (none, s))
    ∧ List.Pairwise (· < ·) (allocatedIds s calls) := by
  constructor
  · intro h
    simp [TicketSystem.create_ticket, h]
  · induction calls generalizing s with
    | nil => simp [allocatedIds]
    | cons c rest ih =>
      cases h1 : TicketTypeRegistry.get s.type_registry c.ticket_type with
      | none =>
        rw [show allocatedIds s (c :: rest) = allocatedIds s rest from by
          simp [allocatedIds, TicketSystem.create_ticket, h1]]
        exact ih s
      | some td =>
        rw [show allocatedIds s (c :: rest)
            = s.next_ticket_id
              :: allocatedIds { s with next_ticket_id := s.next_ticket_id + 1 } rest from by
          simp [allocatedIds, TicketSystem.create_ticket, h1, TicketConfig.validate,
            pydanticStr, Except.map]]
        refine List.Pairwise.cons (fun x hx => ?_) (ih _)
        exact Nat.lt_of_succ_le (allocatedIds_lb rest _ x hx)

/-- Witness for C2: on the scenario system, "bogus" resolves to nothing and
changes nothing, and two "support" calls yield a strictly increasing
allocation trace. -/
theorem c2_witness :
    TicketSystem.create_ticket sScen env0 7 ("bogus") = Except.ok (none, sScen)
    ∧ List.Pairwise (· < ·) (allocatedIds sScen [callSup7, callSup8]) :=
  ⟨(c2_ticket_ids sScen env0 7 ("bogus") []).1 rfl,
   (c2_ticket_ids sScen env0 7 ("bogus") [callSup7, callSup8]).2⟩

/-- C1 (amended): when `close_ticket` finds the ticket and the archive send
succeeds, the ticket is removed from the active map regardless of the
booleans the handlers report; but a handler that raises aborts the remaining
sequence, the `except` converts it to the failure result, and the ticket is
NOT removed - it stays in the active map in its mutated (closed) form. -/
theorem c1_amended (s : TicketSystem) (ticket_id closer_id : Nat) (env : CloseEnv)
    (tk : Ticket)
    (h1 : dictGet s.tickets ticket_id = some tk)
    (h2 : env.archive_send = Except.ok ()) :
    ((∀ hb ∈ s.transcript_handlers, ∃ b, hb = HandlerBehavior.returns b) →
      ∃ s2, TicketSystem.close_ticket s ticket_id closer_id env = Except.ok (true, s2)
        ∧ dictGet s2.tickets ticket_id = none)
    ∧ (∀ e, runHandlers s.transcript_handlers = Except.error e →
      ∃ s2, TicketSystem.close_ticket s ticket_id closer_id env = Except.ok (false, s2)
        ∧ dictGet s2.tickets ticket_id
            = some (Ticket.close (Ticket.collect_messages tk env.hist)
                env.configNow env.transcriptNow)) := by
  constructor
  · intro hall
    have hok : runHandlers s.transcript_handlers = Except.ok () :=
      runHandlers_ok_of_returns _ hall
    have heq : TicketSystem.close_ticket s ticket_id closer_id env
        = Except.ok (true,
            { s with
                tickets :=
                  dictDelete
                    (dictInsert s.tickets ticket_id
                      (Ticket.close (Ticket.collect_messages tk env.hist)
                        env.configNow env.transcriptNow))
                    ticket_id }) := by
      simp [TicketSystem.close_ticket, h1, h2, hok]
    exact ⟨_, heq, by simp [dictGet_dictDelete_self]⟩
  · intro e he
    have heq : TicketSystem.close_ticket s ticket_id closer_id env
        = Except.ok (false,
            { s with
                tickets :=
                  dictInsert s.tickets ticket_id
                    (Ticket.close (Ticket.collect_messages tk env.hist)
                      env.configNow env.transcriptNow) }) := by
      simp [TicketSystem.close_ticket, h1, h2, he]
    exact ⟨_, heq, by simp [dictGet_dictInsert_self]⟩

/-- Witness for C1 (amended): with one well-behaved handler the concrete
close succeeds and removes ticket 1. -/
theorem c1_witness :
    ∃ s2, TicketSystem.close_ticket sC10 1 9 envC1 = Except.ok (true, s2)
      ∧ dictGet s2.tickets 1 = none :=
  (c1_amended sC10 1 9 envC1 tkC1 rfl rfl).1 (by decide)

/-- C1 (counterexample to the claim as stated): on a system whose single
transcript handler raises, `close_ticket` reports failure and ticket 1 is
still in the active-tickets map afterwards, in its closed form - the removal
the claim promises does not happen. -/
theorem c1_counterexample :
    TicketSystem.close_ticket sC1 1 9 envC1 = Except.ok (false, sC1after)
    ∧ dictGet sC1after.tickets 1 = some tkC1closed :=
  ⟨rfl, rfl⟩

/-- C10: when the history iterator raises, the fault is absorbed inside
`collect_messages` (the transcript keeps exactly the entries added before the
fault - the collection loop extends, never truncates, the entry list), and
`close_ticket` still proceeds: with a successful archive send and handlers
that merely report booleans it returns success and removes the ticket. -/
theorem c10_history_fault_contained (s : TicketSystem) (ticket_id closer_id : Nat)
    (env : CloseEnv) (tk : Ticket) (e : PyError)
    (h1 : dictGet s.tickets ticket_id = some tk)
    (h2 : env.archive_send = Except.ok ())
    (h3 : ∀ hb ∈ s.transcript_handlers, ∃ b, hb = HandlerBehavior.returns b)
    (_h4 : env.hist.fault = some e) :
    (∃ added, (Ticket.collect_messages tk env.hist).transcript.entries
        = tk.transcript.entries ++ added)
    ∧ ∃ s2, TicketSystem.close_ticket s ticket_id closer_id env = Except.ok (true, s2)
        ∧ dictGet s2.tickets ticket_id = none := by
  constructor
  · exact ⟨[], by simp [Ticket.collect_messages, collectLoop_id]⟩
  · have hok : runHandlers s.transcript_handlers = Except.ok () :=
      runHandlers_ok_of_returns _ h3
    have heq : TicketSystem.close_ticket s ticket_id closer_id env
        = Except.ok (true,
            { s with
                tickets :=
                  dictDelete
                    (dictInsert s.tickets ticket_id
                      (Ticket.close (Ticket.collect_messages tk env.hist)
                        env.configNow env.transcriptNow))
                    ticket_id }) := by
      simp [TicketSystem.close_ticket, h1, h2, hok]
    exact ⟨_, heq, by simp [dictGet_dictDelete_self]⟩

/-- Witness for C10 at a concrete system whose history iterator raises. -/
theorem c10_witness :
    (∃ added, (Ticket.collect_messages tkC1 envC10.hist).transcript.entries
        = tkC1.transcript.entries ++ added)
    ∧ ∃ s2, TicketSystem.close_ticket sC10 1 9 envC10 = Except.ok (true, s2)
        ∧ dictGet s2.tickets 1 = none :=
  c10_history_fault_contained sC10 1 9 envC10 tkC1 PyError.apiError rfl rfl (by decide) rfl

/-- A key inserted by none of the teams is resolved by the base dictionary. -/
theorem dictGet_foldTeams_not_mem (g : Guild) (teams : List TicketTeam)
    (k : Option PermTarget) :
    ∀ base : List (Option PermTarget × PermissionOverwrite),
      (∀ team ∈ teams, teamKey g team ≠ k) →
      dictGet (teams.foldl (fun acc team => dictInsert acc (teamKey g team) teamOverwrite) base) k
        = dictGet base k := by
  induction teams with
  | nil => intro base _; rfl
  | cons t ts ih =>
    intro base h
    rw [List.foldl_cons]
    rw [ih _ (fun tm hm => h tm (List.mem_cons_of_mem _ hm))]
    exact dictGet_dictInsert_ne base (teamKey g t) k teamOverwrite
      (Ne.symm (h t (List.mem_cons_self t ts)))

/-- A key some team inserts ends up mapped to the team overwrite, whatever
the base dictionary held. -/
theorem dictGet_foldTeams_mem (g : Guild) (teams : List TicketTeam)
    (k : Option PermTarget) :
    ∀ base : List (Option PermTarget × PermissionOverwrite),
      (∃ team ∈ teams, teamKey g team = k) →
      dictGet (teams.foldl (fun acc team => dictInsert acc (teamKey g team) teamOverwrite) base) k
        = some teamOverwrite := by
  induction teams with
  | nil =>
    intro base h
    rcases h with ⟨tm, hm, _⟩
    exact absurd hm (List.not_mem_nil tm)
  | cons t ts ih =>
    intro base h
    rw [List.foldl_cons]
    by_cases hts : ∃ tm ∈ ts, teamKey g tm = k
    · exact ih _ hts
    · have hk : teamKey g t = k := by
        rcases h with ⟨tm, hm, he⟩
        rcases List.mem_cons.mp hm with h1 | h1
        · exact h1 ▸ he
        · exact absurd ⟨tm, h1, he⟩ hts
      push_neg at hts
      rw [dictGet_foldTeams_not_mem g ts k _ hts]
      rw [← hk]
      exact dictGet_dictInsert_self base (teamKey g t) teamOverwrite

/-- C5 (amended): the computed overwrite map always denies the default role,
grants the creator and the bot their overwrites (provided the creator is not
the bot member and no team resolves to the default role - collisions the
claim implicitly excludes), and grants every resolvable team role the team
overwrite; but a team whose role fails to resolve is NOT skipped: its
overwrite is stored under the Python `None` key. The computation is total,
so it never raises. -/
theorem c5_amended (t : TicketTypeConfig) (g : Guild) (creator_id : Nat)
    (hcm : creator_id ≠ g.me_id)
    (hev : ∀ team ∈ t.teams, ∀ r, TicketTeam.get_role team g = some r →
      r.id ≠ g.default_role_id) :
    dictGet (TicketTypeConfig.get_channel_permissions t g creator_id)
        (some (PermTarget.role g.default_role_id)) = some everyoneOverwrite
    ∧ dictGet (TicketTypeConfig.get_channel_permissions t g creator_id)
        (some (PermTarget.member creator_id)) = some creatorOverwrite
    ∧ dictGet (TicketTypeConfig.get_channel_permissions t g creator_id)
        (some (PermTarget.member g.me_id)) = some botOverwrite
    ∧ (∀ team ∈ t.teams, ∀ r, TicketTeam.get_role team g = some r →
        dictGet (TicketTypeConfig.get_channel_permissions t g creator_id)
          (some (PermTarget.role r.id)) = some teamOverwrite)
    ∧ (∀ team ∈ t.teams, TicketTeam.get_role team g = none →
        dictGet (TicketTypeConfig.get_channel_permissions t g creator_id) none
          = some teamOverwrite) := by
  simp only [TicketTypeConfig.get_channel_permissions]
  refine ⟨?_, ?_, ?_, ?_, ?_⟩
  · rw [dictGet_foldTeams_not_mem g t.teams _ _ ?_]
    · rw [dictGet_dictInsert_ne _ _ _ _ (by simp)]
      rw [dictGet_dictInsert_ne _ _ _ _ (by simp)]
      exact dictGet_dictInsert_self _ _ _
    · intro tm hm
      unfold teamKey
      cases hr : TicketTeam.get_role tm g with
      | none => simp
      | some r => simp [hev tm hm r hr]
  · rw [dictGet_foldTeams_not_mem g t.teams _ _ ?_]
    · rw [dictGet_dictInsert_ne _ _ _ _ (by simp [hcm])]
      exact dictGet_dictInsert_self _ _ _
    · intro tm hm
      unfold teamKey
      cases hr : TicketTeam.get_role tm g with
      | none => simp
      | some r => simp
  · rw [dictGet_foldTeams_not_mem g t.teams _ _ ?_]
    · exact dictGet_dictInsert_self _ _ _
    · intro tm hm
      unfold teamKey
      cases hr : TicketTeam.get_role tm g with
      | none => simp
      | some r => simp
  · intro team hm r hr
    exact dictGet_foldTeams_mem g t.teams _ _ ⟨team, hm, by simp [teamKey, hr]⟩
  · intro team hm hr
    exact dictGet_foldTeams_mem g t.teams _ _ ⟨team, hm, by simp [teamKey, hr]⟩

/-- Witness for C5 (amended) on a guild in which the team role resolves. -/
theorem c5_witness :
    dictGet (TicketTypeConfig.get_channel_permissions tdC5 gC5w 7)
        (some (PermTarget.role gC5w.default_role_id)) = some everyoneOverwrite
    ∧ dictGet (TicketTypeConfig.get_channel_permissions tdC5 gC5w 7)
        (some (PermTarget.member 7)) = some creatorOverwrite
    ∧ dictGet (TicketTypeConfig.get_channel_permissions tdC5 gC5w 7)
        (some (PermTarget.member gC5w.me_id)) = some botOverwrite
    ∧ (∀ team ∈ tdC5.teams, ∀ r, TicketTeam.get_role team gC5w = some r →
        dictGet (TicketTypeConfig.get_channel_permissions tdC5 gC5w 7)
          (some (PermTarget.role r.id)) = some teamOverwrite)
    ∧ (∀ team ∈ tdC5.teams, TicketTeam.get_role team gC5w = none →
        dictGet (TicketTypeConfig.get_channel_permissions tdC5 gC5w 7) none
          = some teamOverwrite) :=
  c5_amended tdC5 gC5w 7 (by decide)
    (by
      intro team hm r hr
      have hteams : tdC5.teams = [{ name := "mods", role_id := 5 }] := rfl
      rw [hteams, List.mem_singleton] at hm
      subst hm
      rw [show TicketTeam.get_role { name := "mods", role_id := 5 } gC5w
        = some ⟨5⟩ from rfl] at hr
      injection hr with h5
      subst h5
      decide)

/-- C5 (counterexample to the claim as stated): with one team whose role id 5
does not exist in the guild, the computed map is not the three base entries
alone - the unresolved team is not skipped, its grant sits under the `None`
key and the map has four entries. -/
theorem c5_counterexample :
    dictGet (TicketTypeConfig.get_channel_permissions tdC5 g0 7) none = some teamOverwrite
    ∧ (TicketTypeConfig.get_channel_permissions tdC5 g0 7).length = 4 := by
  exact ⟨rfl, rfl⟩

/-- Collecting messages never changes the ticket: the entry constructor
raises on the first message and the exception is swallowed. -/
theorem applyOp_collect_id (t : Ticket) (hist : HistOutcome) :
    Ticket.applyOp t (TicketOp.collect hist) = t := by
  simp [Ticket.applyOp, Ticket.collect_messages, collectLoop_id]

/-- One well-timed operation preserves the closed-and-stamped state. -/
theorem closedStamped_applyOp (c0 : Nat) (t : Ticket) (op : TicketOp)
    (hop : ∀ a b, op = TicketOp.close a b → c0 ≤ a ∧ c0 ≤ b)
    (h : closedStamped c0 t) : closedStamped c0 (Ticket.applyOp t op) := by
  cases op with
  | collect hist => rw [applyOp_collect_id]; exact h
  | close a b =>
    rcases hop a b rfl with ⟨ha, hb⟩
    exact ⟨a, b, rfl, ha, rfl, hb, rfl⟩

/-- One well-timed operation preserves the reachable-state invariant. -/
theorem closedConsistent_applyOp (c0 : Nat) (t : Ticket) (op : TicketOp)
    (hop : ∀ a b, op = TicketOp.close a b → c0 ≤ a ∧ c0 ≤ b)
    (h : closedConsistent c0 t) : closedConsistent c0 (Ticket.applyOp t op) := by
  cases op with
  | collect hist => rw [applyOp_collect_id]; exact h
  | close a b =>
    rcases hop a b rfl with ⟨ha, hb⟩
    exact Or.inr ⟨a, b, rfl, ha, rfl, hb, rfl⟩

/-- A well-timed operation sequence preserves the closed-and-stamped state. -/
theorem closedStamped_applyOps (c0 : Nat) (ops : List TicketOp) :
    ∀ t : Ticket, (∀ op ∈ ops, ∀ a b, op = TicketOp.close a b → c0 ≤ a ∧ c0 ≤ b) →
      closedStamped c0 t → closedStamped c0 (Ticket.applyOps t ops) := by
  induction ops with
  | nil => intro t _ h; exact h
  | cons op rest ih =>
    intro t h hs
    exact ih _ (fun o hm => h o (List.mem_cons_of_mem _ hm))
      (closedStamped_applyOp c0 t op (h op (List.mem_cons_self op rest)) hs)

/-- A well-timed operation sequence preserves the invariant, and once it
contains a close, the resulting ticket is closed and stamped. -/
theorem closedConsistent_applyOps (c0 : Nat) (ops : List TicketOp) :
    ∀ t : Ticket, (∀ op ∈ ops, ∀ a b, op = TicketOp.close a b → c0 ≤ a ∧ c0 ≤ b) →
      closedConsistent c0 t →
      closedConsistent c0 (Ticket.applyOps t ops)
      ∧ ((∃ a b, TicketOp.close a b ∈ ops) → closedStamped c0 (Ticket.applyOps t ops)) := by
  induction ops with
  | nil =>
    intro t _ hc
    exact ⟨hc, fun ⟨a, b, hm⟩ => absurd hm (List.not_mem_nil _)⟩
  | cons op rest ih =>
    intro t h hc
    have hop := h op (List.mem_cons_self op rest)
    have htl := fun o hm => h o (List.mem_cons_of_mem op hm)
    have hc2 := closedConsistent_applyOp c0 t op hop hc
    refine ⟨(ih _ htl hc2).1, ?_⟩
    rintro ⟨a, b, hm⟩
    rcases List.mem_cons.mp hm with h1 | h1
    · have hst : closedStamped c0 (Ticket.applyOp t op) := by
        rcases hop a b h1.symm with ⟨ha, hb⟩
        rw [← h1]
        exact ⟨a, b, rfl, ha, rfl, hb, rfl⟩
      exact closedStamped_applyOps c0 rest _ htl hst
    · exact (ih _ htl hc2).2 ⟨a, b, h1⟩

/-- C7: over every sequence of public operations on a fresh ticket whose
close-operation clock reads are at or after the creation clock, the config
invariant holds (closure stamp set exactly when status is not OPEN), both
closure stamps are at or after the creation time whenever set, and a close
operation sets them on both the config and the transcript. -/
theorem c7_close_invariant (ticket_id channel_id creator_id : Nat) (tts : String)
    (td : TicketTypeConfig) (c0 : Nat) (ops : List TicketOp)
    (hops : ∀ op ∈ ops, ∀ a b, op = TicketOp.close a b → c0 ≤ a ∧ c0 ≤ b) :
    ((ticketAfter ticket_id channel_id creator_id tts td c0 ops).config.closed_at ≠ none
      ↔ (ticketAfter ticket_id channel_id creator_id tts td c0 ops).config.status
          ≠ TicketStatus.OPEN)
    ∧ (∀ a, (ticketAfter ticket_id channel_id creator_id tts td c0 ops).config.closed_at
          = some a → c0 ≤ a)
    ∧ (∀ b, (ticketAfter ticket_id channel_id creator_id tts td c0 ops).transcript.closed_at
          = some b → c0 ≤ b)
    ∧ ((∃ a b, TicketOp.close a b ∈ ops) →
        (ticketAfter ticket_id channel_id creator_id tts td c0 ops).config.closed_at ≠ none
        ∧ (ticketAfter ticket_id channel_id creator_id tts td c0 ops).transcript.closed_at
            ≠ none) := by
  have hc0 : closedConsistent c0
      (Ticket.init (TicketConfig.init ticket_id channel_id creator_id tts c0)
        channel_id creator_id td) := Or.inl ⟨rfl, rfl, rfl⟩
  obtain ⟨hc, hstamp⟩ := closedConsistent_applyOps c0 ops _ hops hc0
  rw [show ticketAfter ticket_id channel_id creator_id tts td c0 ops
    = Ticket.applyOps (Ticket.init (TicketConfig.init ticket_id channel_id creator_id tts c0)
        channel_id creator_id td) ops from rfl]
  refine ⟨?_, ?_, ?_, ?_⟩
  · rcases hc with ⟨h1, _, h3⟩ | ⟨a, b, h1, _, _, _, h5⟩
    · simp [h1, h3]
    · simp [h1, h5]
  · intro a ha
    rcases hc with ⟨h1, _, _⟩ | ⟨a2, b2, h1, h2, _, _, _⟩
    · rw [h1] at ha; cases ha
    · rw [h1] at ha; injection ha with he; exact he ▸ h2
  · intro b hb
    rcases hc with ⟨_, h1, _⟩ | ⟨a2, b2, _, _, h3, h4, _⟩
    · rw [h1] at hb; cases hb
    · rw [h3] at hb; injection hb with he; exact he ▸ h4
  · intro hex
    rcases hstamp hex with ⟨a, b, h1, _, h3, _, _⟩
    exact ⟨by simp [h1], by simp [h3]⟩

/-- Witness for C7 on a fresh ticket closed at clocks 5 and 6, created at 2. -/
theorem c7_witness :
    ((ticketAfter 1 42 7 ("support") tdSupport 2 [TicketOp.close 5 6]).config.closed_at ≠ none
      ↔ (ticketAfter 1 42 7 ("support") tdSupport 2 [TicketOp.close 5 6]).config.status
          ≠ TicketStatus.OPEN)
    ∧ (∀ a, (ticketAfter 1 42 7 ("support") tdSupport 2 [TicketOp.close 5 6]).config.closed_at
          = some a → 2 ≤ a)
    ∧ (∀ b, (ticketAfter 1 42 7 ("support") tdSupport 2
          [TicketOp.close 5 6]).transcript.closed_at = some b → 2 ≤ b)
    ∧ ((∃ a b, TicketOp.close a b ∈ [TicketOp.close 5 6]) →
        (ticketAfter 1 42 7 ("support") tdSupport 2 [TicketOp.close 5 6]).config.closed_at
            ≠ none
        ∧ (ticketAfter 1 42 7 ("support") tdSupport 2
            [TicketOp.close 5 6]).transcript.closed_at ≠ none) :=
  c7_close_invariant 1 42 7 ("support") tdSupport 2 [TicketOp.close 5 6]
    (by
      intro op hm a b he
      rw [List.mem_singleton] at hm
      subst hm
      injection he with h1 h2
      omega)
